import Mathlib

/-!
Verification of the grounded-QA relay backend (src/backend/main.py).

The backend is a single FastAPI module. We embed its data models
(`Message`, `QueryRequest`), the helper `format_history`, the body of the
`POST /chat` handler `chat_endpoint`, and the pydantic request-shape
validation, as pure Lean functions. The two external providers (the
Tavily search tool and the Groq chat model behind the LangChain chain)
are black boxes: the handler is parameterised by their behaviour, and an
instrumentation record (`Trace`) observes which provider calls the
handler made and with which inputs. Python exceptions are modelled with
`Except String`, carrying `str(e)`.
-/

namespace PerplexMini

/-- pydantic model `Message` (main.py lines 67-69): one client-supplied
history turn with a free-form `role` string and `content`. -/
structure Message where
  role : String
  content : String
deriving DecidableEq, Repr

/-- pydantic model `QueryRequest` (main.py lines 71-73): `query: str` and
`history: List[Message] = []`. -/
structure QueryRequest where
  query : String
  history : List Message
deriving DecidableEq, Repr

/-- LangChain history messages produced by `format_history`:
`HumanMessage(content=...)` or `AIMessage(content=...)`. -/
inductive LCMessage where
  | human (content : String)
  | ai (content : String)
deriving DecidableEq, Repr

/-- `format_history` (main.py lines 76-84): walks the client history in
order, appending a `HumanMessage` when `msg.role == "user"` and an
`AIMessage` otherwise. -/
def format_history : List Message → List LCMessage
  | [] => []
  | msg :: rest =>
    (if msg.role = "user" then LCMessage.human msg.content
     else LCMessage.ai msg.content) :: format_history rest

/-- One raw result from the search provider: a Python dict whose
`content` and `url` keys may be absent (`none`). Other provider fields
are never accessed by the handler, so they are not modelled. -/
structure RawResult where
  content : Option String
  url : Option String
deriving DecidableEq, Repr

/-- Python `str(KeyError(k))`, which renders as the key wrapped in single
quotes. -/
def keyErrorStr (k : String) : String := "\x27" ++ k ++ "\x27"

/-- Python dict subscript `r[k]`: yields the value, or raises `KeyError`
when the key is absent. -/
def dictGet (v : Option String) (k : String) : Except String String :=
  match v with
  | some s => .ok s
  | none => .error (keyErrorStr k)

/-- The comprehension `[r["content"] for r in raw_results]` (main.py line
92), evaluated left to right; the first missing `content` key raises. -/
def contentsOf : List RawResult → Except String (List String)
  | [] => .ok []
  | r :: rest => do
    let c ← dictGet r.content "content"
    let cs ← contentsOf rest
    .ok (c :: cs)

/-- main.py line 92: `context_text = "\n\n".join([r["content"] for r in
raw_results])`. -/
def context_text_of (raw_results : List RawResult) : Except String String :=
  (contentsOf raw_results).map (String.intercalate "\n\n")

/-- One entry of the `sources` field returned to the UI. -/
structure SourceSummary where
  title : String
  url : String
deriving DecidableEq, Repr

/-- One entry of the comprehension on main.py line 105:
`{"title": res["content"][:40] + "...", "url": res["url"]}`. The dict
literal evaluates its values left to right, so a missing `content` key
raises before a missing `url` key. -/
def source_of (res : RawResult) : Except String SourceSummary := do
  let c ← dictGet res.content "content"
  let u ← dictGet res.url "url"
  .ok { title := c.take 40 ++ "...", url := u }

/-- The full comprehension on main.py line 105, left to right. -/
def sources_of : List RawResult → Except String (List SourceSummary)
  | [] => .ok []
  | r :: rest => do
    let s ← source_of r
    let ss ← sources_of rest
    .ok (s :: ss)

/-- The dict passed to `chain.invoke` (main.py lines 98-102): keys
`context`, `question`, `chat_history`. -/
structure ChainInput where
  context : String
  question : String
  chat_history : List LCMessage
deriving DecidableEq, Repr

/-- main.py line 39: `search_tool = TavilySearchResults(max_results=3)`.
The result cap configured on the search tool. -/
def search_tool_max_results : Nat := 3

/-- main.py line 43: the fixed model identifier given to `ChatGroq`. -/
def llm_model : String := "llama-3.3-70b-versatile"

/-- main.py line 44: the temperature given to `ChatGroq`. -/
def llm_temperature : Nat := 0

/-- The success body `{"answer": response, "sources": sources}` (main.py
line 107). -/
structure ChatResponse where
  answer : String
  sources : List SourceSummary
deriving DecidableEq, Repr

/-- Outcome of the `POST /chat` handler: `200` with a `ChatResponse`
body, or `HTTPException(status_code, detail)` (main.py line 110). -/
inductive HTTPOutcome where
  | ok (body : ChatResponse)
  | httpError (status : Nat) (detail : String)
deriving DecidableEq, Repr

/-- Instrumentation of one handler run: the `(query, max_results)` pair
the search provider was invoked with (if at all), and the input the
chain (hence the model provider) was invoked with (if at all). -/
structure Trace where
  searchCall : Option (String × Nat)
  llmCall : Option ChainInput
deriving DecidableEq, Repr

/-- `chat_endpoint` (main.py lines 87-110), as a function of the two
external providers. `search` is the search provider behind
`search_tool.invoke` (receiving the query and the configured result
cap); `chain_invoke` is the LangChain chain `prompt | llm |
StrOutputParser()` behind `chain.invoke`. Every Python exception in the
body is caught by the single `except Exception` and re-raised as
`HTTPException(status_code=500, detail=str(e))`. The second component is
instrumentation recording the provider invocations. -/
def chat_endpoint (search : String → Nat → Except String (List RawResult))
    (chain_invoke : ChainInput → Except String String)
    (request : QueryRequest) : HTTPOutcome × Trace :=
  let sCall := some (request.query, search_tool_max_results)
  match search request.query search_tool_max_results with
  | .error e => (.httpError 500 e, ⟨sCall, none⟩)
  | .ok raw_results =>
    match context_text_of raw_results with
    | .error e => (.httpError 500 e, ⟨sCall, none⟩)
    | .ok context_text =>
      let chat_history := format_history request.history
      let inp : ChainInput := ⟨context_text, request.query, chat_history⟩
      match chain_invoke inp with
      | .error e => (.httpError 500 e, ⟨sCall, some inp⟩)
      | .ok response =>
        match sources_of raw_results with
        | .error e => (.httpError 500 e, ⟨sCall, some inp⟩)
        | .ok sources => (.ok ⟨response, sources⟩, ⟨sCall, some inp⟩)

/-- `GET /` handler (main.py lines 112-114): the fixed liveness message. -/
def home : String := "Perplex-Mini Backend is Running!"

/-- A stream of requests served one after another by the stateless
handler; each element bundles the provider behaviours in effect for that
request with the request itself. -/
def serveAll
    (reqs : List ((String → Nat → Except String (List RawResult)) ×
      (ChainInput → Except String String) × QueryRequest)) :
    List (HTTPOutcome × Trace) :=
  reqs.map (fun r => chat_endpoint r.1 r.2.1 r.2.2)

/-- Minimal JSON values, for modelling the request-body validation that
FastAPI/pydantic performs before `chat_endpoint` runs. -/
inductive JSON where
  | jnull
  | jstr (s : String)
  | jnum (n : Int)
  | jbool (b : Bool)
  | jarr (xs : List JSON)
  | jobj (fields : List (String × JSON))
deriving Repr

/-- Lookup of a key in a JSON object. -/
def jlookup (fields : List (String × JSON)) (k : String) : Option JSON :=
  match fields with
  | [] => none
  | (k2, v) :: rest => if k2 = k then some v else jlookup rest k

/-- pydantic validation of a `str` field: accepts exactly JSON strings
(no coercion, no length constraint is declared in main.py). -/
def validate_str : JSON → Except String String
  | .jstr s => .ok s
  | _ => .error "Input should be a valid string"

/-- pydantic validation of `Message`: `role` and `content` are required
`str` fields. -/
def validate_Message (j : JSON) : Except String Message :=
  match j with
  | .jobj fields => do
    let role ← match jlookup fields "role" with
      | some v => validate_str v
      | none => .error "Field required: role"
    let content ← match jlookup fields "content" with
      | some v => validate_str v
      | none => .error "Field required: content"
    .ok ⟨role, content⟩
  | _ => .error "Input should be a valid object"

/-- Validation of each element of the `history` array, left to right. -/
def validate_Message_list : List JSON → Except String (List Message)
  | [] => .ok []
  | j :: rest => do
    let m ← validate_Message j
    let ms ← validate_Message_list rest
    .ok (m :: ms)

/-- pydantic validation of `QueryRequest` (main.py lines 71-73): `query`
is a required `str` field with no further constraint; `history` is an
optional list of `Message` defaulting to `[]`. -/
def validate_QueryRequest (j : JSON) : Except String QueryRequest :=
  match j with
  | .jobj fields => do
    let query ← match jlookup fields "query" with
      | some v => validate_str v
      | none => .error "Field required: query"
    let history ← match jlookup fields "history" with
      | some (.jarr xs) => validate_Message_list xs
      | some _ => .error "Input should be a valid list"
      | none => .ok []
    .ok ⟨query, history⟩
  | _ => .error "Input should be a valid object"

/-- A well-formed raw search result built from a `(content, url)` pair:
both keys present. -/
def wfResult (p : String × String) : RawResult := ⟨some p.1, some p.2⟩

/-! ### Helper lemmas (shared) -/

/-- On well-formed results the content comprehension succeeds and yields
the contents in provider order. -/
theorem contentsOf_wf (data : List (String × String)) :
    contentsOf (data.map wfResult) = .ok (data.map Prod.fst) := by
  induction data with
  | nil => rfl
  | cons p rest ih =>
    simp [contentsOf, wfResult, dictGet, ih, Bind.bind, Except.bind]

/-- On well-formed results the source comprehension succeeds and yields
the truncated-title summaries in provider order. -/
theorem sources_of_wf (data : List (String × String)) :
    sources_of (data.map wfResult) =
      .ok (data.map (fun p => ⟨p.1.take 40 ++ "...", p.2⟩)) := by
  induction data with
  | nil => rfl
  | cons p rest ih =>
    simp [sources_of, source_of, wfResult, dictGet, ih, Bind.bind, Except.bind]

/-- The content comprehension splits over list append. -/
theorem contentsOf_append (l1 l2 : List RawResult) :
    contentsOf (l1 ++ l2) =
      (contentsOf l1).bind (fun a =>
        (contentsOf l2).bind (fun b => .ok (a ++ b))) := by
  induction l1 with
  | nil =>
    cases h : contentsOf l2 <;> simp [contentsOf, h, Except.bind]
  | cons r rest ih =>
    cases hr : dictGet r.content "content" with
    | error e => simp [contentsOf, hr, Bind.bind, Except.bind]
    | ok c =>
      simp only [List.cons_append, contentsOf, hr, Bind.bind, Except.bind]
      rw [List.append_eq, ih]
      cases contentsOf rest <;> cases contentsOf l2 <;> simp [Except.bind]

/-- The source comprehension splits over list append. -/
theorem sources_of_append (l1 l2 : List RawResult) :
    sources_of (l1 ++ l2) =
      (sources_of l1).bind (fun a =>
        (sources_of l2).bind (fun b => .ok (a ++ b))) := by
  induction l1 with
  | nil =>
    cases h : sources_of l2 <;> simp [sources_of, h, Except.bind]
  | cons r rest ih =>
    cases hr : source_of r with
    | error e => simp [sources_of, hr, Bind.bind, Except.bind]
    | ok s =>
      simp only [List.cons_append, sources_of, hr, Bind.bind, Except.bind]
      rw [List.append_eq, ih]
      cases sources_of rest <;> cases sources_of l2 <;> simp [Except.bind]

/-- Whatever the providers do, the handler records exactly one search
invocation, at the request query and the configured result cap. -/
theorem searchCall_eq (search : String → Nat → Except String (List RawResult))
    (chain_invoke : ChainInput → Except String String) (req : QueryRequest) :
    (chat_endpoint search chain_invoke req).2.searchCall =
      some (req.query, search_tool_max_results) := by
  cases hs : search req.query search_tool_max_results with
  | error e => simp [chat_endpoint, hs]
  | ok raw =>
    cases hc : context_text_of raw with
    | error e => simp [chat_endpoint, hs, hc]
    | ok ctx =>
      cases hch : chain_invoke ⟨ctx, req.query, format_history req.history⟩ with
      | error e => simp [chat_endpoint, hs, hc, hch]
      | ok resp =>
        cases hso : sources_of raw with
        | error e => simp [chat_endpoint, hs, hc, hch, hso]
        | ok s => simp [chat_endpoint, hs, hc, hch, hso]

/-- When the search succeeds with well-formed results, the chain is
invoked at the joined context, the raw query, and the formatted
history. -/
theorem llmCall_eq (data : List (String × String))
    (search : String → Nat → Except String (List RawResult))
    (chain_invoke : ChainInput → Except String String) (req : QueryRequest)
    (hsearch : search req.query search_tool_max_results = .ok (data.map wfResult)) :
    (chat_endpoint search chain_invoke req).2.llmCall =
      some ⟨String.intercalate "\n\n" (data.map Prod.fst), req.query,
        format_history req.history⟩ := by
  have hc : context_text_of (data.map wfResult) =
      .ok (String.intercalate "\n\n" (data.map Prod.fst)) := by
    simp [context_text_of, contentsOf_wf, Except.map]
  cases hch : chain_invoke ⟨String.intercalate "\n\n" (data.map Prod.fst), req.query,
      format_history req.history⟩ with
  | error e => simp [chat_endpoint, hsearch, hc, hch]
  | ok resp =>
    cases hso : sources_of (data.map wfResult) with
    | error e => simp [chat_endpoint, hsearch, hc, hch, hso]
    | ok s => simp [chat_endpoint, hsearch, hc, hch, hso]

/-! ### Claim theorems -/

/-- C2: `format_history` maps an ordered sequence of ChatTurn to an
ordered sequence of provider turns of the same length and order, where
the i-th output is a human turn carrying the i-th input's content iff the
i-th input's role is exactly "user", and an AI turn carrying the content
otherwise (any unrecognized role falls into the assistant branch). -/
theorem format_history_pointwise (msgs : List Message) :
    (format_history msgs).length = msgs.length ∧
    ∀ i : Nat, (format_history msgs)[i]? =
      (msgs[i]?).map (fun m =>
        if m.role = "user" then LCMessage.human m.content
        else LCMessage.ai m.content) := by
  constructor
  · induction msgs with
    | nil => rfl
    | cons m rest ih => simp [format_history, ih]
  · intro i
    induction msgs generalizing i with
    | nil => simp [format_history]
    | cons m rest ih =>
      cases i with
      | zero => simp [format_history]
      | succ n => simp [format_history, ih]

/-- C4: when the search provider raises, the endpoint returns 500 with
detail equal to the stringified error, the model provider is never
invoked, and the outcome does not depend on the model provider at all. -/
theorem search_error_500 (e : String)
    (search : String → Nat → Except String (List RawResult))
    (chain_invoke : ChainInput → Except String String) (req : QueryRequest)
    (hsearch : search req.query search_tool_max_results = .error e) :
    (chat_endpoint search chain_invoke req).1 = .httpError 500 e ∧
    (chat_endpoint search chain_invoke req).2.llmCall = none ∧
    ∀ chain2, chat_endpoint search chain2 req =
      chat_endpoint search chain_invoke req := by
  refine ⟨?_, ?_, ?_⟩ <;> simp [chat_endpoint, hsearch]

/-- C4 witness: a concrete failing search provider. -/
theorem search_error_500_witness :
    ((fun (_ : String) (_ : Nat) =>
        (.error "boom" : Except String (List RawResult))) "q"
        search_tool_max_results = .error "boom") ∧
    (chat_endpoint (fun _ _ => .error "boom") (fun _ => .ok "a")
        ⟨"q", []⟩).1 = .httpError 500 "boom" :=
  ⟨rfl, (search_error_500 "boom" (fun _ _ => .error "boom")
    (fun _ => .ok "a") ⟨"q", []⟩ rfl).1⟩

/-- C7 counterexample: an empty `query` passes the request-shape
validation (the pydantic model declares `query: str` with no
non-emptiness constraint), contradicting the claim that an empty query
fails validation. -/
theorem empty_query_accepted :
    validate_QueryRequest (.jobj [("query", .jstr "")]) =
      .ok ⟨"", []⟩ := rfl

/-- C7 amended: `query` must be present and be a string, but no content
validation is imposed: every string, the empty string included, passes
the request-shape validation; a missing `query` field is rejected. -/
theorem query_validation (s : String) :
    validate_QueryRequest (.jobj [("query", .jstr s)]) = .ok ⟨s, []⟩ ∧
    validate_QueryRequest (.jobj []) = .error "Field required: query" := by
  exact ⟨rfl, rfl⟩

/-- C8: the handler invokes the search provider with the configured
result cap of 3; consequently, if the provider honours its cap, the raw
result list processed per request never has more than 3 entries. -/
theorem search_cap_three
    (search : String → Nat → Except String (List RawResult))
    (chain_invoke : ChainInput → Except String String) (req : QueryRequest)
    (hcap : ∀ q n rs, search q n = .ok rs → rs.length ≤ n) :
    (chat_endpoint search chain_invoke req).2.searchCall =
      some (req.query, 3) ∧
    search_tool_max_results = 3 ∧
    ∀ rs, search req.query search_tool_max_results = .ok rs →
      rs.length ≤ 3 :=
  ⟨searchCall_eq search chain_invoke req, rfl,
    fun _ h => hcap _ _ _ h⟩

/-- C8 witness: a concrete cap-honouring provider. -/
theorem search_cap_three_witness :
    (chat_endpoint (fun _ _ => .ok []) (fun _ => .ok "a")
        ⟨"q", []⟩).2.searchCall = some ("q", 3) ∧
    search_tool_max_results = 3 ∧
    ∀ rs, (fun (_ : String) (_ : Nat) =>
        (.ok [] : Except String (List RawResult))) "q"
        search_tool_max_results = .ok rs → rs.length ≤ 3 :=
  search_cap_three (fun _ _ => .ok []) (fun _ => .ok "a")
    ⟨"q", []⟩ (fun _ _ _ h => by
      cases h
      simp)

/-- C9: for every well-formed result the derived title is
`content[:40] + "..."`; it never exceeds 43 characters, and when the
content is shorter than 40 characters the title is the whole content
followed by the ellipsis marker. -/
theorem title_truncation (c u : String) :
    source_of ⟨some c, some u⟩ = .ok ⟨c.take 40 ++ "...", u⟩ ∧
    (c.take 40 ++ "...").length ≤ 43 ∧
    (c.length < 40 → c.take 40 ++ "..." = c ++ "...") := by
  refine ⟨rfl, ?_, ?_⟩
  · have h : (c.take 40).length ≤ 40 := by
      rw [String.take_eq, String.length_mk]
      simp [Nat.min_le_left]
    calc (c.take 40 ++ "...").length
        = (c.take 40).length + 3 := by rw [String.length_append]; rfl
      _ ≤ 43 := by omega
  · intro hlt
    have hc : c.take 40 = c := by
      rw [String.take_eq]
      have hd : c.1.take 40 = c.1 := by
        apply List.take_of_length_le
        have := hlt
        rw [← String.length_data] at this
        omega
      rw [hd]
    rw [hc]

/-- C9 witness: a concrete short content. -/
theorem title_truncation_witness :
    source_of ⟨some "hi", some "u"⟩ = .ok ⟨"hi".take 40 ++ "...", "u"⟩ ∧
    ("hi".take 40 ++ "...").length ≤ 43 ∧
    "hi".take 40 ++ "..." = "hi" ++ "..." :=
  ⟨(title_truncation "hi" "u").1, (title_truncation "hi" "u").2.1,
    (title_truncation "hi" "u").2.2 (by decide)⟩

/-- C1: on a successful `POST /chat` where the provider returned K
results (0 ≤ K ≤ 3), the `sources` field has exactly K entries in
provider order, the i-th title being the first 40 characters of the i-th
content followed by the ellipsis marker and the i-th url the i-th
result's url; no filtering or deduplication. -/
theorem sources_shape (data : List (String × String))
    (search : String → Nat → Except String (List RawResult))
    (chain_invoke : ChainInput → Except String String)
    (req : QueryRequest) (ans : String)
    (_hK : data.length ≤ 3)
    (hsearch : search req.query search_tool_max_results =
      .ok (data.map wfResult))
    (hchain : chain_invoke ⟨String.intercalate "\n\n" (data.map Prod.fst),
        req.query, format_history req.history⟩ = .ok ans) :
    (chat_endpoint search chain_invoke req).1 =
      .ok ⟨ans, data.map (fun p => ⟨p.1.take 40 ++ "...", p.2⟩)⟩ ∧
    (data.map (fun p => (⟨p.1.take 40 ++ "...", p.2⟩ : SourceSummary))).length
      = data.length := by
  refine ⟨?_, by simp⟩
  have hc : context_text_of (data.map wfResult) =
      .ok (String.intercalate "\n\n" (data.map Prod.fst)) := by
    simp [context_text_of, contentsOf_wf, Except.map]
  simp [chat_endpoint, hsearch, hc, hchain, sources_of_wf]

/-- C1 witness: one concrete result. -/
theorem sources_shape_witness :
    (chat_endpoint (fun _ _ => .ok [wfResult ("alpha", "http-a")])
        (fun _ => .ok "ans") ⟨"q", []⟩).1 =
      .ok ⟨"ans", [("alpha", "http-a")].map
        (fun p => ⟨p.1.take 40 ++ "...", p.2⟩)⟩ ∧
    ([("alpha", "http-a")].map
      (fun p => (⟨p.1.take 40 ++ "...", p.2⟩ : SourceSummary))).length =
      [("alpha", "http-a")].length :=
  sources_shape [("alpha", "http-a")]
    (fun _ _ => .ok [wfResult ("alpha", "http-a")])
    (fun _ => .ok "ans") ⟨"q", []⟩ "ans" (by decide) rfl rfl

/-- C3: the context block handed to the chain equals the `content`
fields of all returned results joined with a blank-line separator, in
provider order; zero results give the empty context block and are not an
error. -/
theorem context_block (data : List (String × String))
    (search : String → Nat → Except String (List RawResult))
    (chain_invoke : ChainInput → Except String String) (req : QueryRequest)
    (hsearch : search req.query search_tool_max_results =
      .ok (data.map wfResult)) :
    (chat_endpoint search chain_invoke req).2.llmCall =
      some ⟨String.intercalate "\n\n" (data.map Prod.fst), req.query,
        format_history req.history⟩ ∧
    (data = [] → ∀ ans,
      chain_invoke ⟨"", req.query, format_history req.history⟩ = .ok ans →
      (chat_endpoint search chain_invoke req).1 = .ok ⟨ans, []⟩) := by
  refine ⟨llmCall_eq data search chain_invoke req hsearch, ?_⟩
  rintro rfl ans hchain
  simp only [List.map_nil] at hsearch
  have hchain2 : chain_invoke ⟨String.intercalate "\n\n" [], req.query,
      format_history req.history⟩ = .ok ans := hchain
  simp [chat_endpoint, hsearch, hchain2, context_text_of, contentsOf,
    sources_of, Except.map]

/-- C3 witness: zero results give an empty context block and a 200. -/
theorem context_block_witness :
    (chat_endpoint (fun _ _ => .ok []) (fun _ => .ok "a")
        ⟨"q", []⟩).2.llmCall =
      some ⟨String.intercalate "\n\n" ([] : List String), "q",
        format_history []⟩ ∧
    (chat_endpoint (fun _ _ => .ok []) (fun _ => .ok "a") ⟨"q", []⟩).1 =
      .ok ⟨"a", []⟩ :=
  ⟨(context_block [] (fun _ _ => .ok []) (fun _ => .ok "a")
      ⟨"q", []⟩ rfl).1,
   (context_block [] (fun _ _ => .ok []) (fun _ => .ok "a")
      ⟨"q", []⟩ rfl).2 rfl "a" rfl⟩

/-- C5: when the model provider raises, the endpoint returns 500 with
detail equal to the stringified error and the response carries no
`answer` field (it is not a success body). -/
theorem llm_error_500 (data : List (String × String))
    (search : String → Nat → Except String (List RawResult))
    (chain_invoke : ChainInput → Except String String)
    (req : QueryRequest) (e : String)
    (hsearch : search req.query search_tool_max_results =
      .ok (data.map wfResult))
    (hchain : chain_invoke ⟨String.intercalate "\n\n" (data.map Prod.fst),
        req.query, format_history req.history⟩ = .error e) :
    (chat_endpoint search chain_invoke req).1 = .httpError 500 e ∧
    ∀ body, (chat_endpoint search chain_invoke req).1 ≠ .ok body := by
  have hc : context_text_of (data.map wfResult) =
      .ok (String.intercalate "\n\n" (data.map Prod.fst)) := by
    simp [context_text_of, contentsOf_wf, Except.map]
  constructor
  · simp [chat_endpoint, hsearch, hc, hchain]
  · intro body
    simp [chat_endpoint, hsearch, hc, hchain]

/-- C5 witness: a concrete failing model provider. -/
theorem llm_error_500_witness :
    (chat_endpoint (fun _ _ => .ok []) (fun _ => .error "llmfail")
        ⟨"q", []⟩).1 = .httpError 500 "llmfail" ∧
    ∀ body, (chat_endpoint (fun _ _ => .ok [])
        (fun _ => .error "llmfail") ⟨"q", []⟩).1 ≠ .ok body :=
  llm_error_500 [] (fun _ _ => .ok []) (fun _ => .error "llmfail")
    ⟨"q", []⟩ "llmfail" rfl rfl

/-- C6: the relay is deterministic and stateless: identical requests
against identical provider behaviour yield identical responses, and in
any stream of requests the outcome at each position depends only on that
position's request and providers, not on the requests served before or
after it. -/
theorem stateless_deterministic :
    (∀ (search : String → Nat → Except String (List RawResult))
      (chain_invoke : ChainInput → Except String String)
      (r₁ r₂ : QueryRequest), r₁ = r₂ →
      chat_endpoint search chain_invoke r₁ =
        chat_endpoint search chain_invoke r₂) ∧
    (∀ pre x post, (serveAll (pre ++ x :: post))[pre.length]? =
      some (chat_endpoint x.1 x.2.1 x.2.2)) := by
  constructor
  · intro s c r₁ r₂ h
    rw [h]
  · intro pre x post
    induction pre with
    | nil => simp [serveAll]
    | cons a rest ih => simpa [serveAll] using ih

/-- C6 witness: a concrete two-request stream. -/
theorem stateless_deterministic_witness :
    chat_endpoint (fun _ _ => .ok []) (fun _ => .ok "a") ⟨"q", []⟩ =
      chat_endpoint (fun _ _ => .ok []) (fun _ => .ok "a") ⟨"q", []⟩ ∧
    (serveAll ([((fun _ _ => .ok []), (fun _ => .ok "a"), ⟨"q", []⟩)] ++
      ((fun _ _ => .ok []), (fun _ => .ok "a"), ⟨"q2", []⟩) :: []))[1]? =
      some (chat_endpoint (fun _ _ => .ok []) (fun _ => .ok "a")
        ⟨"q2", []⟩) :=
  ⟨stateless_deterministic.1 _ _ _ _ rfl,
   stateless_deterministic.2
     [((fun _ _ => .ok []), (fun _ => .ok "a"), ⟨"q", []⟩)]
     ((fun _ _ => .ok []), (fun _ => .ok "a"), ⟨"q2", []⟩) []⟩

/-- C10: every exception in the handler body is caught by the single
catch-all and surfaced as a 500 whose detail is the stringified
exception; in particular a result missing its `url` key yields a 500
(detail `str(KeyError)`) even though the model provider was already
invoked successfully. -/
theorem catch_all_500 :
    (∀ (search : String → Nat → Except String (List RawResult))
      (chain_invoke : ChainInput → Except String String)
      (req : QueryRequest),
      (∃ body, (chat_endpoint search chain_invoke req).1 = .ok body) ∨
      (∃ e, (chat_endpoint search chain_invoke req).1 =
        .httpError 500 e)) ∧
    (∀ (data : List (String × String)) (c : String)
      (search : String → Nat → Except String (List RawResult))
      (chain_invoke : ChainInput → Except String String)
      (req : QueryRequest) (ans : String),
      search req.query search_tool_max_results =
        .ok (data.map wfResult ++ [⟨some c, none⟩]) →
      chain_invoke ⟨String.intercalate "\n\n" (data.map Prod.fst ++ [c]),
        req.query, format_history req.history⟩ = .ok ans →
      (chat_endpoint search chain_invoke req).1 =
        .httpError 500 (keyErrorStr "url") ∧
      (chat_endpoint search chain_invoke req).2.llmCall ≠ none) := by
  constructor
  · intro search chain_invoke req
    cases hs : search req.query search_tool_max_results with
    | error e => exact .inr ⟨e, by simp [chat_endpoint, hs]⟩
    | ok raw =>
      cases hc : context_text_of raw with
      | error e => exact .inr ⟨e, by simp [chat_endpoint, hs, hc]⟩
      | ok ctx =>
        cases hch : chain_invoke ⟨ctx, req.query, format_history req.history⟩ with
        | error e => exact .inr ⟨e, by simp [chat_endpoint, hs, hc, hch]⟩
        | ok resp =>
          cases hso : sources_of raw with
          | error e => exact .inr ⟨e, by simp [chat_endpoint, hs, hc, hch, hso]⟩
          | ok srcs =>
            exact .inl ⟨⟨resp, srcs⟩, by simp [chat_endpoint, hs, hc, hch, hso]⟩
  · intro data c search chain_invoke req ans hsearch hchain
    have hcontents : contentsOf (data.map wfResult ++ [⟨some c, none⟩]) =
        .ok (data.map Prod.fst ++ [c]) := by
      rw [contentsOf_append, contentsOf_wf]
      rfl
    have hctx : context_text_of (data.map wfResult ++ [⟨some c, none⟩]) =
        .ok (String.intercalate "\n\n" (data.map Prod.fst ++ [c])) := by
      simp [context_text_of, hcontents, Except.map]
    have hsrc : sources_of (data.map wfResult ++ [⟨some c, none⟩]) =
        .error (keyErrorStr "url") := by
      rw [sources_of_append, sources_of_wf]
      rfl
    constructor
    · simp [chat_endpoint, hsearch, hctx, hchain, hsrc]
    · simp [chat_endpoint, hsearch, hctx, hchain, hsrc]

/-- C10 witness: a concrete result with `content` but no `url` key,
after a successful model call. -/
theorem catch_all_500_witness :
    ((∃ body, (chat_endpoint (fun _ _ => .ok [⟨some "c1", none⟩])
        (fun _ => .ok "ans") ⟨"q", []⟩).1 = .ok body) ∨
     (∃ e, (chat_endpoint (fun _ _ => .ok [⟨some "c1", none⟩])
        (fun _ => .ok "ans") ⟨"q", []⟩).1 = .httpError 500 e)) ∧
    (chat_endpoint (fun _ _ => .ok [⟨some "c1", none⟩])
        (fun _ => .ok "ans") ⟨"q", []⟩).1 =
      .httpError 500 (keyErrorStr "url") ∧
    (chat_endpoint (fun _ _ => .ok [⟨some "c1", none⟩])
        (fun _ => .ok "ans") ⟨"q", []⟩).2.llmCall ≠ none :=
  ⟨catch_all_500.1 _ _ _,
   (catch_all_500.2 [] "c1" (fun _ _ => .ok [⟨some "c1", none⟩])
      (fun _ => .ok "ans") ⟨"q", []⟩ "ans" rfl rfl).1,
   (catch_all_500.2 [] "c1" (fun _ _ => .ok [⟨some "c1", none⟩])
      (fun _ => .ok "ans") ⟨"q", []⟩ "ans" rfl rfl).2⟩

end PerplexMini
